/-
Verification of the liquidctl Corsair Commander Pro driver and the PMBus
numeric / error-check codec, as a shallow embedding of:

  - src/liquidctl/driver/commander_pro.py  (channel resolution, fan control,
    LED effect staging and commit protocol)
  - src/liquidctl/pmbus.py                 (compute_pec, linear_to_float,
    float_to_linear11)

Conventions of the embedding:

  - Python ints are modelled as ℤ where they can be negative (user-supplied
    duty, start_led, maximum_leds, profile entries) and as ℕ where they are
    byte values.  Python floats are modelled as ℚ.
  - A HID exchange is modelled as the Frame (command byte plus data payload)
    passed to CommanderPro._send_command; each driver operation returns the
    ordered list of frames it writes.
  - The persistent store value for a key is modelled as an Option carried in
    and out of each operation ("None"/absent collapses to the load default,
    matching RuntimeStorage semantics relied upon by the driver).
  - A Python exception is modelled as an Except error value, or, for
    set_color (which can also warn and return early), by the raised field of
    its result record.
-/
import Mathlib

/-! ## Collaborators outside src/ (liquidctl.util and the Python runtime) -/

/-- Modelled from the spec: the clamping utility of liquidctl.util (not under
src/); "Clamping (duty 0-100, LED ranges) is a silent corrective policy":
values below the minimum are raised to it, values above the maximum lowered. -/
def clamp (value clampMin clampMax : ℤ) : ℤ := max clampMin (min clampMax value)

/-- Modelled from the spec: the direction mapper of liquidctl.util (not under
src/); it maps the "direction" argument to a forward/backward code, forward
being the default. -/
def map_direction (direction : String) (forward backward : ℕ) : ℕ :=
  if direction = "backward" then backward else forward

/-- Modelled from the spec: the profile utility collaborator of liquidctl.util
(not under src/): "given a raw list of (temperature, value) pairs, a critical
temperature, and a maximum value, returns a normalized ordered sequence capped
at the maximum value and consistent with monotonic temperature ordering; this
layer only relies on its output length and ordering contract."  We model it as
the order- and length-preserving capping of values at the maximum value. -/
def normalize_profile (profile : List (ℤ × ℤ)) (critx maxy : ℤ) : List (ℤ × ℤ) :=
  profile.map (fun p => (p.1, min p.2 maxy))

/-- Python built-in round (banker's rounding, round half to even) on exact
rationals. -/
def pyRound (q : ℚ) : ℤ :=
  if q - ⌊q⌋ < 1/2 then ⌊q⌋
  else if 1/2 < q - ⌊q⌋ then ⌊q⌋ + 1
  else if 2 ∣ ⌊q⌋ then ⌊q⌋ else ⌊q⌋ + 1

/-! ## src/liquidctl/pmbus.py : CRC-8 packet error code -/

/-- pmbus._PEC_MSB_MASK = 1 << (_PEC_WIDTH - 1) with _PEC_WIDTH = 8. -/
def _PEC_MSB_MASK : ℕ := 1 <<< (8 - 1)

/-- pmbus._PEC_MASK = (_PEC_MSB_MASK << 1) - 1. -/
def _PEC_MASK : ℕ := (_PEC_MSB_MASK <<< 1) - 1

/-- pmbus._PEC_POLY = 0b100000111 & _PEC_MASK. -/
def _PEC_POLY : ℕ := 0b100000111 &&& _PEC_MASK

/-- One simulated shift step of the table generator loop body in
pmbus._gen_pec_table. -/
def _pec_step (reg : ℕ) : ℕ :=
  if reg &&& _PEC_MSB_MASK ≠ 0 then (reg <<< 1) ^^^ _PEC_POLY else reg <<< 1

/-- Table entry for index i: eight shift steps, then masked to 8 bits, as in
the inner loop of pmbus._gen_pec_table. -/
def _pec_entry (i : ℕ) : ℕ := (_pec_step^[8] i) &&& _PEC_MASK

/-- pmbus._gen_pec_table: the 256-entry CRC-8 lookup table.  The Python
function caches the table in a module-level variable; the table is a pure
function of constants, so the cache is observationally the identity and is
not modelled. -/
def _gen_pec_table : List ℕ := (List.range 256).map _pec_entry

/-- pmbus.compute_pec: the register starts at 0 and is replaced by
table[register XOR byte] for each input byte. -/
def compute_pec (bs : List ℕ) : ℕ :=
  bs.foldl (fun reg octet => _gen_pec_table.getD (reg ^^^ octet) 0) 0

/-! ## src/liquidctl/pmbus.py : LINEAR11 / ULINEAR16 -/

/-- The exponent chosen by pmbus.float_to_linear11 for a nonzero value:
n = math.ceil(math.log(math.fabs(x)/1023, 2)), on exact rationals. -/
def _l11_n (x : ℚ) : ℤ := Int.clog 2 (|x| / 1023)

/-- The mantissa chosen by pmbus.float_to_linear11: y = round(x * 2 ** (-n)). -/
def _l11_y (x : ℚ) : ℤ := pyRound (x * (2:ℚ) ^ (-_l11_n x))

/-- The exponent wrapped into its 5-bit two's-complement field
(if n < 0: n = n + 32). -/
def _l11_n2 (x : ℚ) : ℤ := if _l11_n x < 0 then _l11_n x + 32 else _l11_n x

/-- The mantissa wrapped into its 11-bit two's-complement field
(if y < 0: y = y + 2048). -/
def _l11_y2 (x : ℚ) : ℤ := if _l11_y x < 0 then _l11_y x + 2048 else _l11_y x

/-- The packed 16-bit value (n << 11) | y of pmbus.float_to_linear11; the
wrapped mantissa always fits in 11 bits, so the bitwise OR is the shown sum. -/
def _l11_v (x : ℚ) : ℕ := (_l11_n2 x * 2048 + _l11_y2 x).toNat

/-- pmbus.float_to_linear11.  Zero maps to the two zero bytes; otherwise the
packed value is emitted in little-endian byte order
(int.to_bytes(v, length=2, byteorder="little")). -/
def float_to_linear11 (x : ℚ) : List ℕ :=
  if x = 0 then [0x00, 0x00]
  else [_l11_v x % 256, _l11_v x / 256]

/-- pmbus.linear_to_float.  With vout_exp = none the two input bytes are read
little-endian as LINEAR11 (11-bit two's-complement mantissa in bits 0-10,
5-bit two's-complement exponent in bits 11-15); with vout_exp = some ve the
exponent is the low five bits of ve (two's-complement) and the mantissa is the
unsigned 16-bit input. -/
def linear_to_float (bs : List ℕ) (vout_exp : Option ℕ) : ℚ :=
  let tmp : ℕ := bs.getD 0 0 + 256 * bs.getD 1 0
  let exp1 : ℤ := match vout_exp with
    | none => ((tmp >>> 11 : ℕ) : ℤ)
    | some ve => ((ve &&& 0x1f : ℕ) : ℤ)
  let fra : ℤ := match vout_exp with
    | none =>
        if ((tmp &&& 0x7ff : ℕ) : ℤ) > 1023 then ((tmp &&& 0x7ff : ℕ) : ℤ) - 2048
        else ((tmp &&& 0x7ff : ℕ) : ℤ)
    | some _ => (tmp : ℤ)
  let exp : ℤ := if exp1 > 15 then exp1 - 32 else exp1
  (fra : ℚ) * (2:ℚ) ^ exp

/-! ## src/liquidctl/driver/commander_pro.py : constants and channel names -/

def _CMD_GET_FAN_MODES : ℕ := 0x20

def _CMD_SET_FAN_DUTY : ℕ := 0x23

def _CMD_SET_FAN_PROFILE : ℕ := 0x25

def _CMD_RESET_LED_CHANNEL : ℕ := 0x37

def _CMD_BEGIN_LED_EFFECT : ℕ := 0x34

def _CMD_SET_LED_CHANNEL_STATE : ℕ := 0x38

def _CMD_LED_EFFECT : ℕ := 0x35

def _CMD_LED_COMMIT : ℕ := 0x33

def _LED_SPEED_FAST : ℕ := 0x00

def _LED_SPEED_MEDIUM : ℕ := 0x01

def _LED_SPEED_SLOW : ℕ := 0x02

def _LED_DIRECTION_FORWARD : ℕ := 0x01

def _LED_DIRECTION_BACKWARD : ℕ := 0x00

def _FAN_MODE_DISCONNECTED : ℕ := 0x00

def _FAN_MODE_DC : ℕ := 0x01

def _FAN_MODE_PWM : ℕ := 0x02

def _PROFILE_LENGTH : ℕ := 6

def _CRITICAL_TEMPERATURE : ℤ := 60

def _CRITICAL_TEMPERATURE_HIGH : ℤ := 100

def _MAX_FAN_RPM : ℤ := 5000

/-- The _MODES dict of commander_pro.py, as a lookup ("temperature" is
commented out in the source); dict.get(mode, -1) followed by the -1 check is
modelled as this Option. -/
def _MODES (mode : String) : Option ℕ :=
  if mode = "off" then some 0x04
  else if mode = "rainbow" then some 0x00
  else if mode = "color_shift" then some 0x01
  else if mode = "color_pulse" then some 0x02
  else if mode = "color_wave" then some 0x03
  else if mode = "fixed" then some 0x04
  else if mode = "visor" then some 0x06
  else if mode = "marquee" then some 0x07
  else if mode = "blink" then some 0x08
  else if mode = "sequential" then some 0x09
  else if mode = "rainbow2" then some 0x0a
  else none

/-- The single-quote character used by Python repr of a str, written by code
point to keep the embedding printable. -/
def _SQ : String := String.singleton (Char.ofNat 39)

/-- commander_pro._quoted: ", ".join(map(repr, names)), where repr of a plain
str wraps it in single quotes. -/
def _quoted (names : List String) : String :=
  String.intercalate ", " (names.map (fun n => _SQ ++ n ++ _SQ))

/-- CommanderPro.__init__: self._fan_names = [f"fan{i+1}" for i in
range(fan_count)]. -/
def fan_names (fan_count : ℕ) : List String :=
  (List.range fan_count).map (fun i => "fan" ++ toString (i + 1))

/-- CommanderPro.__init__: ["led"] when led_channels == 1, else
[f"led{i+1}" for i in range(led_channels)]. -/
def led_names (led_channels : ℕ) : List String :=
  if led_channels = 1 then ["led"]
  else (List.range led_channels).map (fun i => "led" ++ toString (i + 1))

/-- One frame as handed to CommanderPro._send_command: the command byte and
the data payload written from offset 2 of the 64-byte report. -/
structure Frame where
  cmd : ℕ
  data : List ℕ
deriving DecidableEq

/-- CommanderPro._get_hw_fan_channels.  "sync" resolves to all fan indices;
a known name to its index; an unknown name raises ValueError when more than
one fan channel exists and falls through to Python None otherwise. -/
def _get_hw_fan_channels (names : List String) (channel : String) :
    Except String (Option (List ℕ)) :=
  if channel = "sync" then .ok (some (List.range names.length))
  else if channel ∈ names then .ok (some [names.indexOf channel])
  else if names.length > 1 then
    .error ("unknown channel, should be one of: " ++ _quoted ("sync" :: names))
  else .ok none

/-- CommanderPro._get_hw_led_channels, same shape as the fan resolver but over
the led names. -/
def _get_hw_led_channels (names : List String) (channel : String) :
    Except String (Option (List ℕ)) :=
  if channel = "sync" then .ok (some (List.range names.length))
  else if channel ∈ names then .ok (some [names.indexOf channel])
  else if names.length > 1 then
    .error ("unknown channel, should be one of: " ++ _quoted ("sync" :: names))
  else .ok none

/-! ## src/liquidctl/driver/commander_pro.py : fan control -/

/-- commander_pro._prepare_profile: clamp duties into [0, _MAX_FAN_RPM],
normalize, then pad with (criticalTemperature, _MAX_FAN_RPM) points up to
exactly _PROFILE_LENGTH points, raising ValueError when more were supplied. -/
def _prepare_profile (original : List (ℤ × ℤ)) (critcalTempature : ℤ) :
    Except String (List (ℤ × ℤ)) :=
  let clamped := original.map (fun td => (td.1, clamp td.2 0 _MAX_FAN_RPM))
  let normal := normalize_profile clamped critcalTempature _MAX_FAN_RPM
  if normal.length > _PROFILE_LENGTH then
    .error ("too many points in profile (remove " ++
      toString (normal.length - _PROFILE_LENGTH) ++ ")")
  else
    .ok (normal ++ List.replicate (_PROFILE_LENGTH - normal.length)
          (critcalTempature, _MAX_FAN_RPM))

/-- The send loop of CommanderPro.set_fixed_speed: one SET_FAN_DUTY frame per
resolved fan whose cached mode is DC or PWM. -/
def set_fixed_speed_loop (fan_modes : List ℕ) (duty : ℕ) :
    List ℕ → List Frame
  | [] => []
  | fan :: rest =>
    (if fan_modes.getD fan 0 = _FAN_MODE_DC ∨ fan_modes.getD fan 0 = _FAN_MODE_PWM
     then [⟨_CMD_SET_FAN_DUTY, [fan, duty]⟩] else [])
      ++ set_fixed_speed_loop fan_modes duty rest

/-- CommanderPro.set_fixed_speed.  The cached "fan_modes" value is loaded with
default [0] * fan_count (list indexing is total here; resolved indices are
always within the cached list under the length invariant of SessionState). -/
def set_fixed_speed (fanNames : List String) (stored_fan_modes : Option (List ℕ))
    (channel : String) (duty : ℤ) : Except String (List Frame) :=
  if fanNames.length = 0 then .error "NotSupportedByDevice"
  else
    let d := clamp duty 0 100
    match _get_hw_fan_channels fanNames channel with
    | .error e => .error e
    | .ok none => .error "TypeError: NoneType object is not iterable"
    | .ok (some fan_channels) =>
      let fan_modes := stored_fan_modes.getD (List.replicate fanNames.length 0)
      .ok (set_fixed_speed_loop fan_modes d.toNat fan_channels)

/-- Big-endian 2-byte encoding, int.to_bytes(v, 2, byteorder="big") for
in-range values. -/
def u16be (v : ℤ) : List ℕ := [v.toNat / 256 % 256, v.toNat % 256]

/-- Bytes 1..25 of the 26-byte profile buffer of CommanderPro.set_speed_profile:
zero-based sensor index, six big-endian (temperature * 100) words, six
big-endian duty/rpm words; byte 0 (the fan index) is filled per resolved fan. -/
def _profile_buf_tail (prof : List (ℤ × ℤ)) (temp_sensor : ℤ) : List ℕ :=
  [(temp_sensor - 1).toNat]
    ++ prof.flatMap (fun e => u16be (e.1 * 100))
    ++ prof.flatMap (fun e => u16be e.2)

/-- The send loop of CommanderPro.set_speed_profile: one SET_FAN_PROFILE frame
per resolved fan in DC or PWM mode, with the fan index as buffer byte 0. -/
def set_speed_profile_loop (fan_modes : List ℕ) (buf_tail : List ℕ) :
    List ℕ → List Frame
  | [] => []
  | fan :: rest =>
    (if fan_modes.getD fan 0 = _FAN_MODE_DC ∨ fan_modes.getD fan 0 = _FAN_MODE_PWM
     then [⟨_CMD_SET_FAN_PROFILE, fan :: buf_tail⟩] else [])
      ++ set_speed_profile_loop fan_modes buf_tail rest

/-- CommanderPro.set_speed_profile.  The critical temperature is 100 under the
"high_temperature" unsafe flag, else 60; _prepare_profile runs (and can
reject) before the sensor check and before any frame is produced. -/
def set_speed_profile (fanNames : List String)
    (stored_fan_modes stored_temp_sensors : Option (List ℕ)) (temp_probs : ℕ)
    (channel : String) (profile : List (ℤ × ℤ)) (temperature_sensor : ℤ)
    (allow_high_temperature : Bool) : Except String (List Frame) :=
  if fanNames.length = 0 then .error "NotSupportedByDevice"
  else
    let criticalTemp :=
      if allow_high_temperature then _CRITICAL_TEMPERATURE_HIGH
      else _CRITICAL_TEMPERATURE
    match _prepare_profile profile criticalTemp with
    | .error e => .error e
    | .ok prof =>
      let temp_sensor := clamp temperature_sensor 1 temp_probs
      let sensors := stored_temp_sensors.getD (List.replicate temp_probs 0)
      if sensors.getD (temp_sensor - 1).toNat 0 ≠ 1 then
        .error "the specified temperature sensor is not connected"
      else
        match _get_hw_fan_channels fanNames channel with
        | .error e => .error e
        | .ok none => .error "TypeError: NoneType object is not iterable"
        | .ok (some fan_channels) =>
          .ok (set_speed_profile_loop
                (stored_fan_modes.getD (List.replicate fanNames.length 0))
                (_profile_buf_tail prof temp_sensor) fan_channels)

/-! ## src/liquidctl/driver/commander_pro.py : LED effect staging -/

/-- One staged lighting effect, the dict built inside CommanderPro.set_color. -/
structure LightingEffect where
  channel : ℕ
  start_led : ℕ
  num_leds : ℕ
  mode : ℕ
  speed : ℕ
  direction : ℕ
  random_colors : ℕ
  colors : List ℕ
deriving DecidableEq

/-- Result of one CommanderPro.set_color call: the frames written in order,
the "saved_effects" value persisted in SessionState when the call returns
(unchanged input value when nothing was stored), whether the staging-overflow
warning was logged, and the exception raised, if any. -/
structure SetColorResult where
  frames : List Frame
  saved_effects : Option (List LightingEffect)
  warned : Bool
  raised : Option String
deriving DecidableEq

/-- The LED_EFFECT frame sent for one staged effect in the replay loop of
CommanderPro.set_color. -/
def led_effect_frame (e : LightingEffect) : Frame :=
  ⟨_CMD_LED_EFFECT,
   [e.channel, e.start_led, e.num_leds, e.mode, e.speed, e.direction,
    e.random_colors, 0xff] ++ e.colors⟩

/-- The per-channel staging loop of CommanderPro.set_color: append the new
effect; if more than 8 effects are now staged, return early (True flags the
logged warning); otherwise send the three per-channel initialization frames
and continue. -/
def led_channel_loop (eff : ℕ → LightingEffect) :
    List ℕ → List LightingEffect → List Frame × List LightingEffect × Bool
  | [], saved_effects => ([], saved_effects, false)
  | led_channel :: rest, saved_effects =>
    let saved2 := saved_effects ++ [eff led_channel]
    if saved2.length > 8 then ([], saved2, true)
    else
      let out := led_channel_loop eff rest saved2
      ([⟨_CMD_RESET_LED_CHANNEL, [led_channel]⟩,
        ⟨_CMD_BEGIN_LED_EFFECT, [led_channel]⟩,
        ⟨_CMD_SET_LED_CHANNEL_STATE, [led_channel, 0x01]⟩] ++ out.1, out.2)

/-- The three per-channel initialization frames, for stating what the staging
loop sends. -/
def init_frames (channels : List ℕ) : List Frame :=
  channels.flatMap (fun led_channel =>
    [⟨_CMD_RESET_LED_CHANNEL, [led_channel]⟩,
     ⟨_CMD_BEGIN_LED_EFFECT, [led_channel]⟩,
     ⟨_CMD_SET_LED_CHANNEL_STATE, [led_channel, 0x01]⟩])

/-- CommanderPro.set_color over a device with LED channel names ledNames and
stored "saved_effects" value stored.  Mirrors the source order: the "clear"
pseudo-mode stores None and returns; colors are flattened from the first three
triples; direction, speed, start_led, num_leds, random_colors and the mode
code are computed; an invalid mode raises ValueError; the staged list is
loaded ([] for mode "off"); the channel loop appends and initializes (or
returns early on overflow without storing); the new list is stored (None for
"off"); every staged effect is replayed and one commit frame is sent. -/
def set_color (ledNames : List String) (stored : Option (List LightingEffect))
    (channel mode : String) (colors : List (ℕ × ℕ × ℕ))
    (direction speed : String) (start_led maximum_leds : ℤ) : SetColorResult :=
  if mode = "clear" then ⟨[], none, false, none⟩
  else
    let cbytes := (colors.take 3).flatMap (fun c => [c.1, c.2.1, c.2.2])
    let dir := map_direction direction _LED_DIRECTION_FORWARD _LED_DIRECTION_BACKWARD
    let spd := if speed = "slow" then _LED_SPEED_SLOW
      else if speed = "fast" then _LED_SPEED_FAST else _LED_SPEED_MEDIUM
    let sl : ℤ := clamp start_led 1 204 - 1
    let nl : ℤ := clamp maximum_leds 1 (204 - sl - 1)
    let rand : ℕ := if mode = "off" ∨ cbytes.length ≠ 0 then 0x00 else 0x01
    match _MODES mode with
    | none => ⟨[], stored, false, some ("ValueError: mode \"" ++ mode ++ "\" is not valid")⟩
    | some mode_val =>
      let saved0 := if mode = "off" then [] else stored.getD []
      match _get_hw_led_channels ledNames channel with
      | .error e => ⟨[], stored, false, some e⟩
      | .ok none => ⟨[], stored, false, some "TypeError: NoneType object is not iterable"⟩
      | .ok (some chans) =>
        let eff := fun led_channel =>
          LightingEffect.mk led_channel sl.toNat nl.toNat mode_val spd dir rand cbytes
        let out := led_channel_loop eff chans saved0
        if out.2.2 then ⟨out.1, stored, true, none⟩
        else
          ⟨out.1 ++ out.2.1.map led_effect_frame ++ [⟨_CMD_LED_COMMIT, [0xff]⟩],
           if mode = "off" then none else some out.2.1, false, none⟩

/-- The flattened color bytes of a set_color call: the first three RGB triples
in order. -/
def flat_colors (colors : List (ℕ × ℕ × ℕ)) : List ℕ :=
  (colors.take 3).flatMap (fun c => [c.1, c.2.1, c.2.2])

/-- The LightingEffect staged by set_color for one resolved channel, with all
field computations of the source spelled out. -/
def staged_effect (mode speed direction : String) (colors : List (ℕ × ℕ × ℕ))
    (start_led maximum_leds : ℤ) (mode_val : ℕ) (led_channel : ℕ) : LightingEffect :=
  LightingEffect.mk led_channel
    (clamp start_led 1 204 - 1).toNat
    (clamp maximum_leds 1 (204 - (clamp start_led 1 204 - 1) - 1)).toNat
    mode_val
    (if speed = "slow" then _LED_SPEED_SLOW
     else if speed = "fast" then _LED_SPEED_FAST else _LED_SPEED_MEDIUM)
    (map_direction direction _LED_DIRECTION_FORWARD _LED_DIRECTION_BACKWARD)
    (if mode = "off" ∨ (flat_colors colors).length ≠ 0 then 0x00 else 0x01)
    (flat_colors colors)

/-- The staged-effect list set_color starts from: empty for mode "off", else
the stored "saved_effects" (default empty). -/
def loaded_effects (mode : String) (stored : Option (List LightingEffect)) :
    List LightingEffect :=
  if mode = "off" then [] else stored.getD []

/-! ## Helper lemmas -/

theorem clog2_eq {q : ℚ} {n : ℤ} (h0 : 0 < q) (h1 : (2:ℚ) ^ (n - 1) < q)
    (h2 : q ≤ (2:ℚ) ^ n) : Int.clog 2 q = n := by
  have hb : 1 < 2 := by norm_num
  have ha : Int.clog 2 q ≤ n := (Int.le_zpow_iff_clog_le hb h0).mp h2
  have hbn : n - 1 < Int.clog 2 q := (Int.zpow_lt_iff_lt_clog hb h0).mp h1
  omega

theorem pyRound_intCast (z : ℤ) : pyRound (z : ℚ) = z := by
  unfold pyRound
  rw [Int.floor_intCast]
  norm_num

theorem pyRound_eq_floor_add_one {q : ℚ} {f : ℤ} (hf : ⌊q⌋ = f) (h : 1/2 < q - f) :
    pyRound q = f + 1 := by
  have h2 : ¬ (q - f < 1/2) := by linarith
  simp only [pyRound, hf, if_neg h2, if_pos h]

theorem pyRound_le {q : ℚ} {c : ℤ} (h : q ≤ c) : pyRound q ≤ c := by
  unfold pyRound
  have hf : ⌊q⌋ ≤ c := Int.cast_le.mp (le_trans (Int.floor_le q) h)
  rcases eq_or_lt_of_le hf with he | hl
  · have hq : q - (⌊q⌋:ℚ) ≤ 0 := by rw [he]; linarith
    have h2 : q - (⌊q⌋:ℚ) < 1/2 := by linarith
    rw [if_pos h2]; omega
  · split
    · omega
    · split
      · omega
      · split <;> omega

theorem le_pyRound {q : ℚ} {c : ℤ} (h : (c:ℚ) ≤ q) : c ≤ pyRound q := by
  unfold pyRound
  have hf : c ≤ ⌊q⌋ := Int.le_floor.mpr h
  split
  · omega
  · split
    · omega
    · split <;> omega

theorem led_channel_loop_no_overflow (eff : ℕ → LightingEffect) :
    ∀ (chans : List ℕ) (saved : List LightingEffect),
      saved.length + chans.length ≤ 8 →
      led_channel_loop eff chans saved = (init_frames chans, saved ++ chans.map eff, false) := by
  intro chans
  induction chans with
  | nil =>
    intro saved h
    simp [led_channel_loop, init_frames]
  | cons c rest ih =>
    intro saved h
    have hlen : ¬ ((saved ++ [eff c]).length > 8) := by
      simp only [List.length_append, List.length_cons, List.length_nil] at *
      omega
    have hrec := ih (saved ++ [eff c]) (by
      simp only [List.length_append, List.length_cons, List.length_nil] at *
      omega)
    simp only [led_channel_loop, if_neg hlen, hrec, init_frames, List.flatMap_cons]
    simp [init_frames, List.append_assoc]

theorem led_channel_loop_frames (eff : ℕ → LightingEffect) :
    ∀ (chans : List ℕ) (saved : List LightingEffect),
      ∀ f ∈ (led_channel_loop eff chans saved).1,
        f.cmd = _CMD_RESET_LED_CHANNEL ∨ f.cmd = _CMD_BEGIN_LED_EFFECT ∨
          f.cmd = _CMD_SET_LED_CHANNEL_STATE := by
  intro chans
  induction chans with
  | nil =>
    intro saved f hf
    simp [led_channel_loop] at hf
  | cons c rest ih =>
    intro saved f hf
    simp only [led_channel_loop] at hf
    by_cases hlen : (saved ++ [eff c]).length > 8
    · rw [if_pos hlen] at hf
      simp at hf
    · rw [if_neg hlen] at hf
      simp only [List.mem_append, List.mem_cons, List.mem_singleton] at hf
      rcases hf with ((h | h | h | h) | h)
      · left; rw [h]
      · right; left; rw [h]
      · right; right; rw [h]
      · exact absurd h (by simp)
      · exact ih (saved ++ [eff c]) f h

theorem set_fixed_speed_loop_eq (modes : List ℕ) (d : ℕ) :
    ∀ chans : List ℕ,
      set_fixed_speed_loop modes d chans =
        (chans.filter (fun fan =>
            decide (modes.getD fan 0 = _FAN_MODE_DC ∨ modes.getD fan 0 = _FAN_MODE_PWM))).map
          (fun fan => ⟨_CMD_SET_FAN_DUTY, [fan, d]⟩) := by
  intro chans
  induction chans with
  | nil => simp [set_fixed_speed_loop]
  | cons fan rest ih =>
    by_cases hm : modes.getD fan 0 = _FAN_MODE_DC ∨ modes.getD fan 0 = _FAN_MODE_PWM
    · simp only [set_fixed_speed_loop, List.filter_cons, if_pos hm, decide_eq_true hm, ih]
      simp
    · simp only [set_fixed_speed_loop, List.filter_cons, if_neg hm, decide_eq_false hm, ih]
      simp

theorem init_frames_filter_effect (chans : List ℕ) :
    (init_frames chans).filter (fun f => f.cmd == _CMD_LED_EFFECT) = [] := by
  induction chans with
  | nil => simp [init_frames]
  | cons c rest ih =>
    simp only [init_frames, List.flatMap_cons] at *
    simp [List.filter_append, ih, _CMD_LED_EFFECT, _CMD_RESET_LED_CHANNEL,
      _CMD_BEGIN_LED_EFFECT, _CMD_SET_LED_CHANNEL_STATE]
    simpa [init_frames] using ih

theorem init_frames_filter_commit (chans : List ℕ) :
    (init_frames chans).filter (fun f => f.cmd == _CMD_LED_COMMIT) = [] := by
  induction chans with
  | nil => simp [init_frames]
  | cons c rest ih =>
    simp only [init_frames, List.flatMap_cons] at *
    simp [List.filter_append, ih, _CMD_LED_COMMIT, _CMD_RESET_LED_CHANNEL,
      _CMD_BEGIN_LED_EFFECT, _CMD_SET_LED_CHANNEL_STATE]
    simpa [init_frames] using ih

theorem map_effect_filter_effect (l : List LightingEffect) :
    (l.map led_effect_frame).filter (fun f => f.cmd == _CMD_LED_EFFECT) =
      l.map led_effect_frame := by
  induction l with
  | nil => simp
  | cons e rest ih => simp [led_effect_frame, List.filter_cons, ih]

theorem map_effect_filter_commit (l : List LightingEffect) :
    (l.map led_effect_frame).filter (fun f => f.cmd == _CMD_LED_COMMIT) = [] := by
  induction l with
  | nil => simp
  | cons e rest ih =>
    simp [led_effect_frame, List.filter_cons, ih, _CMD_LED_COMMIT, _CMD_LED_EFFECT]

theorem set_color_run (ledNames : List String) (stored : Option (List LightingEffect))
    (channel mode : String) (colors : List (ℕ × ℕ × ℕ)) (direction speed : String)
    (sl ml : ℤ) (mv : ℕ) (chans : List ℕ)
    (hclear : mode ≠ "clear") (hmode : _MODES mode = some mv)
    (hres : _get_hw_led_channels ledNames channel = .ok (some chans)) :
    set_color ledNames stored channel mode colors direction speed sl ml =
      (if (led_channel_loop (staged_effect mode speed direction colors sl ml mv) chans
            (loaded_effects mode stored)).2.2 then
        ⟨(led_channel_loop (staged_effect mode speed direction colors sl ml mv) chans
            (loaded_effects mode stored)).1, stored, true, none⟩
       else
        ⟨(led_channel_loop (staged_effect mode speed direction colors sl ml mv) chans
            (loaded_effects mode stored)).1 ++
           (led_channel_loop (staged_effect mode speed direction colors sl ml mv) chans
             (loaded_effects mode stored)).2.1.map led_effect_frame ++
           [⟨_CMD_LED_COMMIT, [0xff]⟩],
         if mode = "off" then none
         else some (led_channel_loop (staged_effect mode speed direction colors sl ml mv) chans
           (loaded_effects mode stored)).2.1, false, none⟩) := by
  simp only [set_color, if_neg hclear, hmode, hres, staged_effect, loaded_effects, flat_colors]
  rfl

theorem set_color_res_error (ledNames : List String) (stored : Option (List LightingEffect))
    (channel mode : String) (colors : List (ℕ × ℕ × ℕ)) (direction speed : String)
    (sl ml : ℤ) (mv : ℕ) (e : String)
    (hclear : mode ≠ "clear") (hmode : _MODES mode = some mv)
    (hres : _get_hw_led_channels ledNames channel = .error e) :
    set_color ledNames stored channel mode colors direction speed sl ml =
      ⟨[], stored, false, some e⟩ := by
  simp only [set_color, if_neg hclear, hmode, hres]

theorem set_color_res_none (ledNames : List String) (stored : Option (List LightingEffect))
    (channel mode : String) (colors : List (ℕ × ℕ × ℕ)) (direction speed : String)
    (sl ml : ℤ) (mv : ℕ)
    (hclear : mode ≠ "clear") (hmode : _MODES mode = some mv)
    (hres : _get_hw_led_channels ledNames channel = .ok none) :
    set_color ledNames stored channel mode colors direction speed sl ml =
      ⟨[], stored, false, some "TypeError: NoneType object is not iterable"⟩ := by
  simp only [set_color, if_neg hclear, hmode, hres]

theorem mode_of_MODES_some {mode : String} {mv : ℕ} (h : _MODES mode = some mv) :
    mode ≠ "clear" := by
  intro hc
  rw [hc] at h
  simp [_MODES] at h

/-! ## Claim theorems -/

/-- C8: compute_pec is the table-driven CRC-8 with polynomial 0x07 (256-entry
table, register starting at 0, replaced by table[register XOR byte] per input
byte) and matches the three documented vectors: the ASCII bytes of
"123456789" give 0xf4, [0x5c] gives 0x93, and [0x5c, 0x93] gives 0x00;
moreover appending any message's own PEC byte always yields PEC 0. -/
theorem C8_compute_pec_crc8 :
    compute_pec [0x31, 0x32, 0x33, 0x34, 0x35, 0x36, 0x37, 0x38, 0x39] = 0xf4 ∧
    compute_pec [0x5c] = 0x93 ∧
    compute_pec [0x5c, 0x93] = 0x00 ∧
    _gen_pec_table.length = 256 ∧
    ∀ m : List ℕ, compute_pec (m ++ [compute_pec m]) = 0 := by
  refine ⟨by decide, by decide, by decide, by simp [_gen_pec_table], ?_⟩
  intro m
  unfold compute_pec
  rw [List.foldl_append]
  simp only [List.foldl_cons, List.foldl_nil, Nat.xor_self]
  decide

/-- C3: channel-name resolution on every variant.  On the 6-fan variant each
"fanN" resolves to [N-1] and "sync" to [0..5]; on the 2-LED variants "ledN"
resolves to [N-1] and "sync" to [0,1]; on the 1-LED variant "led" resolves to
[0].  An unknown name on a multi-channel variant raises the ValueError listing
the quoted valid choices, "sync" first, then the channel names in order; an
unknown name on the single-LED-channel variant returns Python None without
raising. -/
theorem C3_channel_name_resolution :
    (_get_hw_fan_channels (fan_names 6) "fan1" = .ok (some [0]) ∧
     _get_hw_fan_channels (fan_names 6) "fan2" = .ok (some [1]) ∧
     _get_hw_fan_channels (fan_names 6) "fan3" = .ok (some [2]) ∧
     _get_hw_fan_channels (fan_names 6) "fan4" = .ok (some [3]) ∧
     _get_hw_fan_channels (fan_names 6) "fan5" = .ok (some [4]) ∧
     _get_hw_fan_channels (fan_names 6) "fan6" = .ok (some [5]) ∧
     _get_hw_fan_channels (fan_names 6) "sync" = .ok (some [0, 1, 2, 3, 4, 5])) ∧
    (_get_hw_led_channels (led_names 2) "led1" = .ok (some [0]) ∧
     _get_hw_led_channels (led_names 2) "led2" = .ok (some [1]) ∧
     _get_hw_led_channels (led_names 2) "sync" = .ok (some [0, 1])) ∧
    (_get_hw_led_channels (led_names 1) "led" = .ok (some [0]) ∧
     _get_hw_led_channels (led_names 1) "sync" = .ok (some [0])) ∧
    (∀ channel : String, channel ≠ "sync" → channel ∉ fan_names 6 →
      _get_hw_fan_channels (fan_names 6) channel =
        .error ("unknown channel, should be one of: " ++
          _SQ ++ "sync" ++ _SQ ++ ", " ++ _SQ ++ "fan1" ++ _SQ ++ ", " ++
          _SQ ++ "fan2" ++ _SQ ++ ", " ++ _SQ ++ "fan3" ++ _SQ ++ ", " ++
          _SQ ++ "fan4" ++ _SQ ++ ", " ++ _SQ ++ "fan5" ++ _SQ ++ ", " ++
          _SQ ++ "fan6" ++ _SQ)) ∧
    (∀ channel : String, channel ≠ "sync" → channel ∉ led_names 2 →
      _get_hw_led_channels (led_names 2) channel =
        .error ("unknown channel, should be one of: " ++
          _SQ ++ "sync" ++ _SQ ++ ", " ++ _SQ ++ "led1" ++ _SQ ++ ", " ++
          _SQ ++ "led2" ++ _SQ)) ∧
    (∀ channel : String, channel ≠ "sync" → channel ≠ "led" →
      _get_hw_led_channels (led_names 1) channel = .ok none) := by
  refine ⟨⟨by rfl, by rfl, by rfl, by rfl, by rfl, by rfl, by rfl⟩,
    ⟨by rfl, by rfl, by rfl⟩, ⟨by rfl, by rfl⟩, ?_, ?_, ?_⟩
  · intro channel h1 h2
    unfold _get_hw_fan_channels
    rw [if_neg h1, if_neg h2, if_pos (by decide)]
    rfl
  · intro channel h1 h2
    unfold _get_hw_led_channels
    rw [if_neg h1, if_neg h2, if_pos (by decide)]
    rfl
  · intro channel h1 h2
    unfold _get_hw_led_channels
    have h3 : channel ∉ led_names 1 := by
      intro hmem
      simp [led_names] at hmem
      exact h2 hmem
    rw [if_neg h1, if_neg h3, if_neg (by decide)]

/-- Witness for C3 at the concrete unknown channel name "foo". -/
theorem C3_channel_name_resolution_witness :
    _get_hw_fan_channels (fan_names 6) "foo" =
      .error ("unknown channel, should be one of: " ++
        _SQ ++ "sync" ++ _SQ ++ ", " ++ _SQ ++ "fan1" ++ _SQ ++ ", " ++
        _SQ ++ "fan2" ++ _SQ ++ ", " ++ _SQ ++ "fan3" ++ _SQ ++ ", " ++
        _SQ ++ "fan4" ++ _SQ ++ ", " ++ _SQ ++ "fan5" ++ _SQ ++ ", " ++
        _SQ ++ "fan6" ++ _SQ) ∧
    _get_hw_led_channels (led_names 2) "foo" =
      .error ("unknown channel, should be one of: " ++
        _SQ ++ "sync" ++ _SQ ++ ", " ++ _SQ ++ "led1" ++ _SQ ++ ", " ++
        _SQ ++ "led2" ++ _SQ) ∧
    _get_hw_led_channels (led_names 1) "foo" = .ok none := by
  refine ⟨?_, ?_, ?_⟩
  · exact C3_channel_name_resolution.2.2.2.1 "foo" (by decide) (by decide)
  · exact C3_channel_name_resolution.2.2.2.2.1 "foo" (by decide) (by decide)
  · exact C3_channel_name_resolution.2.2.2.2.2 "foo" (by decide) (by decide)

/-- C5: set_color with mode "clear" stores a cleared "saved_effects" and
returns immediately with zero transport writes, regardless of the current
staged state; and set_color with mode "off" ignores previously staged effects
(its frames do not depend on the stored list at all) and, whenever the call
completes without raising and without the overflow warning, persists a cleared
staged-effect state. -/
theorem C5_clear_and_off_reset (ledNames : List String)
    (stored stored2 : Option (List LightingEffect)) (channel : String)
    (colors : List (ℕ × ℕ × ℕ)) (direction speed : String) (sl ml : ℤ) :
    set_color ledNames stored channel "clear" colors direction speed sl ml =
      ⟨[], none, false, none⟩ ∧
    (set_color ledNames stored channel "off" colors direction speed sl ml).frames =
      (set_color ledNames stored2 channel "off" colors direction speed sl ml).frames ∧
    ((set_color ledNames stored channel "off" colors direction speed sl ml).raised = none →
     (set_color ledNames stored channel "off" colors direction speed sl ml).warned = false →
     (set_color ledNames stored channel "off" colors direction speed sl ml).saved_effects =
       none) := by
  have hclear : ("off" : String) ≠ "clear" := by decide
  have hmode : _MODES "off" = some 0x04 := rfl
  refine ⟨by simp [set_color], ?_⟩
  cases hres : _get_hw_led_channels ledNames channel with
  | error e =>
    rw [set_color_res_error ledNames stored channel "off" colors direction speed sl ml 0x04 e
          hclear hmode hres,
        set_color_res_error ledNames stored2 channel "off" colors direction speed sl ml 0x04 e
          hclear hmode hres]
    exact ⟨rfl, by intro h; simp at h⟩
  | ok oval =>
    cases oval with
    | none =>
      rw [set_color_res_none ledNames stored channel "off" colors direction speed sl ml 0x04
            hclear hmode hres,
          set_color_res_none ledNames stored2 channel "off" colors direction speed sl ml 0x04
            hclear hmode hres]
      exact ⟨rfl, by intro h; simp at h⟩
    | some chans =>
      rw [set_color_run ledNames stored channel "off" colors direction speed sl ml 0x04 chans
            hclear hmode hres,
          set_color_run ledNames stored2 channel "off" colors direction speed sl ml 0x04 chans
            hclear hmode hres]
      rw [show loaded_effects "off" stored = [] from rfl,
          show loaded_effects "off" stored2 = [] from rfl]
      rcases hl : led_channel_loop (staged_effect "off" speed direction colors sl ml 0x04)
          chans [] with ⟨fs, se, ov⟩
      cases ov with
      | true => exact ⟨rfl, by intro _ h; simp at h⟩
      | false => exact ⟨rfl, by intro _ _; simp⟩

/-- Witness for C5 on a concrete device and stored state: a "clear" call with
two staged effects stored, and an "off" call whose result ignores a stored
effect and stores None. -/
theorem C5_clear_and_off_reset_witness :
    set_color ["led1", "led2"] (some [⟨0, 0, 1, 4, 1, 1, 0, []⟩, ⟨1, 0, 1, 4, 1, 1, 0, []⟩])
      "led1" "clear" [] "forward" "medium" 1 1 = ⟨[], none, false, none⟩ ∧
    (set_color ["led1", "led2"] (some [⟨0, 0, 1, 4, 1, 1, 0, []⟩]) "led1" "off" []
      "forward" "medium" 1 1).frames =
      (set_color ["led1", "led2"] none "led1" "off" [] "forward" "medium" 1 1).frames ∧
    (set_color ["led1", "led2"] (some [⟨0, 0, 1, 4, 1, 1, 0, []⟩]) "led1" "off" []
      "forward" "medium" 1 1).saved_effects = none := by
  refine ⟨(C5_clear_and_off_reset _ _ none _ _ _ _ _ _).1,
    (C5_clear_and_off_reset ["led1", "led2"] (some [⟨0, 0, 1, 4, 1, 1, 0, []⟩]) none
      "led1" [] "forward" "medium" 1 1).2.1,
    (C5_clear_and_off_reset ["led1", "led2"] (some [⟨0, 0, 1, 4, 1, 1, 0, []⟩]) none
      "led1" [] "forward" "medium" 1 1).2.2 (by rfl) (by rfl)⟩

/-- C10: on the single-LED-channel variant (channel names ["led"]), set_color
with an unknown channel name and a valid non-"clear" mode does not silently do
nothing: the resolver returns Python None, and the call raises TypeError when
iterating it, before any frame is sent and before "saved_effects" is
persisted, leaving the stored state unchanged. -/
theorem C10_unknown_channel_single_led_raises (stored : Option (List LightingEffect))
    (channel mode : String) (colors : List (ℕ × ℕ × ℕ)) (direction speed : String)
    (sl ml : ℤ) (mv : ℕ)
    (hmode : _MODES mode = some mv)
    (h1 : channel ≠ "sync") (h2 : channel ≠ "led") :
    _get_hw_led_channels ["led"] channel = .ok none ∧
    set_color ["led"] stored channel mode colors direction speed sl ml =
      ⟨[], stored, false, some "TypeError: NoneType object is not iterable"⟩ := by
  have hres : _get_hw_led_channels ["led"] channel = .ok none := by
    unfold _get_hw_led_channels
    have h3 : channel ∉ ["led"] := by
      intro hmem
      simp at hmem
      exact h2 hmem
    rw [if_neg h1, if_neg h3, if_neg (by decide)]
  exact ⟨hres, set_color_res_none _ stored _ _ colors _ _ sl ml mv
    (mode_of_MODES_some hmode) hmode hres⟩

/-- Witness for C10 at the concrete unknown channel "led1" with mode "fixed". -/
theorem C10_unknown_channel_single_led_raises_witness :
    _get_hw_led_channels ["led"] "led1" = .ok none ∧
    set_color ["led"] (some [⟨0, 0, 1, 4, 1, 1, 0, []⟩]) "led1" "fixed" [(255, 0, 0)]
      "forward" "medium" 1 1 =
      ⟨[], some [⟨0, 0, 1, 4, 1, 1, 0, []⟩], false,
       some "TypeError: NoneType object is not iterable"⟩ :=
  C10_unknown_channel_single_led_raises (some [⟨0, 0, 1, 4, 1, 1, 0, []⟩]) "led1" "fixed"
    [(255, 0, 0)] "forward" "medium" 1 1 0x04 (by rfl) (by decide) (by decide)

theorem led_channel_loop_overflow (eff : ℕ → LightingEffect) :
    ∀ (chans : List ℕ) (saved : List LightingEffect), chans ≠ [] →
      8 < saved.length + chans.length →
      (led_channel_loop eff chans saved).2.2 = true := by
  intro chans
  induction chans with
  | nil => intro saved h _; exact absurd rfl h
  | cons c rest ih =>
    intro saved _ hover
    simp only [led_channel_loop]
    by_cases hlen : (saved ++ [eff c]).length > 8
    · rw [if_pos hlen]
    · rw [if_neg hlen]
      have hrest : rest ≠ [] := by
        intro hr
        rw [hr] at hover
        simp only [List.length_append, List.length_cons, List.length_singleton,
          List.length_nil] at hover hlen
        omega
      have hlt : 8 < (saved ++ [eff c]).length + rest.length := by
        simp only [List.length_append, List.length_cons, List.length_singleton] at *
        omega
      exact ih (saved ++ [eff c]) hrest hlt

theorem led_channel_loop_saved_total (eff : ℕ → LightingEffect) :
    ∀ (chans : List ℕ) (saved : List LightingEffect),
      (led_channel_loop eff chans saved).2.2 = false →
      (led_channel_loop eff chans saved).2.1 = saved ++ chans.map eff := by
  intro chans
  induction chans with
  | nil => intro saved _; simp [led_channel_loop]
  | cons c rest ih =>
    intro saved hov
    simp only [led_channel_loop] at *
    by_cases hlen : (saved ++ [eff c]).length > 8
    · rw [if_pos hlen] at hov
      simp at hov
    · rw [if_neg hlen] at hov ⊢
      have := ih (saved ++ [eff c]) hov
      simp only [this, List.map_cons]
      simp [List.append_assoc]

/-- C1 (amended): a set_color call with a valid non-"clear" mode in which
appending the new LightingEffect(s) makes the staged-effect count exceed 8 is
aborted: the overflow warning is surfaced, no exception escapes, the persisted
"saved_effects" is left unchanged, no LED-effect (0x35) or commit (0x33) frame
is sent, and when the call resolves to a single physical channel (in
particular any single-channel 9th call after 8 staged effects) no frame at all
is sent.  (Per-channel initialization frames for channels of the same call
processed before the overflow, which can only arise for multi-channel "sync"
calls, are the one exception to "no frame"; see the counterexample.) -/
theorem C1_staging_overflow_aborts (ledNames : List String)
    (stored : Option (List LightingEffect)) (channel mode : String)
    (colors : List (ℕ × ℕ × ℕ)) (direction speed : String) (sl ml : ℤ) (mv : ℕ)
    (chans : List ℕ)
    (hmode : _MODES mode = some mv)
    (hres : _get_hw_led_channels ledNames channel = .ok (some chans))
    (hne : chans ≠ [])
    (hover : 8 < (loaded_effects mode stored).length + chans.length) :
    (set_color ledNames stored channel mode colors direction speed sl ml).warned = true ∧
    (set_color ledNames stored channel mode colors direction speed sl ml).saved_effects =
      stored ∧
    (set_color ledNames stored channel mode colors direction speed sl ml).raised = none ∧
    (∀ f ∈ (set_color ledNames stored channel mode colors direction speed sl ml).frames,
      f.cmd ≠ _CMD_LED_EFFECT ∧ f.cmd ≠ _CMD_LED_COMMIT) ∧
    (∀ c, chans = [c] →
      (set_color ledNames stored channel mode colors direction speed sl ml).frames = []) := by
  rw [set_color_run ledNames stored channel mode colors direction speed sl ml mv chans
    (mode_of_MODES_some hmode) hmode hres]
  have hov : (led_channel_loop (staged_effect mode speed direction colors sl ml mv) chans
      (loaded_effects mode stored)).2.2 = true :=
    led_channel_loop_overflow _ chans _ hne hover
  rw [if_pos hov]
  refine ⟨rfl, rfl, rfl, ?_, ?_⟩
  · intro f hf
    have h3 := led_channel_loop_frames (staged_effect mode speed direction colors sl ml mv)
      chans (loaded_effects mode stored) f hf
    unfold _CMD_RESET_LED_CHANNEL _CMD_BEGIN_LED_EFFECT _CMD_SET_LED_CHANNEL_STATE at h3
    unfold _CMD_LED_EFFECT _CMD_LED_COMMIT
    omega
  · intro c hc
    subst hc
    show (led_channel_loop (staged_effect mode speed direction colors sl ml mv) [c]
      (loaded_effects mode stored)).1 = []
    have hlen : ((loaded_effects mode stored) ++
        [staged_effect mode speed direction colors sl ml mv c]).length > 8 := by
      simp only [List.length_append, List.length_singleton, List.length_cons,
        List.length_nil] at *
      omega
    simp only [led_channel_loop, if_pos hlen]

/-- Counterexample to C1 as stated: a "sync" call on a two-channel device with
7 staged effects overflows on the second channel, yet the three initialization
frames for the first channel have already been sent, so "no frame is sent for
that call" is false (the staged state is still left unchanged). -/
theorem C1_staging_overflow_counterexample :
    (set_color ["led1", "led2"] (some (List.replicate 7 ⟨0, 0, 1, 4, 1, 1, 0, []⟩)) "sync"
      "fixed" [(255, 0, 0)] "forward" "medium" 1 1).warned = true ∧
    (set_color ["led1", "led2"] (some (List.replicate 7 ⟨0, 0, 1, 4, 1, 1, 0, []⟩)) "sync"
      "fixed" [(255, 0, 0)] "forward" "medium" 1 1).frames =
      [⟨0x37, [0]⟩, ⟨0x34, [0]⟩, ⟨0x38, [0, 0x01]⟩] ∧
    (set_color ["led1", "led2"] (some (List.replicate 7 ⟨0, 0, 1, 4, 1, 1, 0, []⟩)) "sync"
      "fixed" [(255, 0, 0)] "forward" "medium" 1 1).frames ≠ [] ∧
    (set_color ["led1", "led2"] (some (List.replicate 7 ⟨0, 0, 1, 4, 1, 1, 0, []⟩)) "sync"
      "fixed" [(255, 0, 0)] "forward" "medium" 1 1).saved_effects =
      some (List.replicate 7 ⟨0, 0, 1, 4, 1, 1, 0, []⟩) := by
  refine ⟨by decide, by decide, by decide, by decide⟩

/-- Witness for C1 (amended): after 8 staged effects, a 9th single-channel
call warns, sends no frame at all, and leaves the 8 staged effects
unmodified. -/
theorem C1_staging_overflow_aborts_witness :
    (set_color ["led1", "led2"] (some (List.replicate 8 ⟨0, 0, 1, 4, 1, 1, 0, []⟩)) "led1"
      "fixed" [(255, 0, 0)] "forward" "medium" 1 1).warned = true ∧
    (set_color ["led1", "led2"] (some (List.replicate 8 ⟨0, 0, 1, 4, 1, 1, 0, []⟩)) "led1"
      "fixed" [(255, 0, 0)] "forward" "medium" 1 1).saved_effects =
      some (List.replicate 8 ⟨0, 0, 1, 4, 1, 1, 0, []⟩) ∧
    (set_color ["led1", "led2"] (some (List.replicate 8 ⟨0, 0, 1, 4, 1, 1, 0, []⟩)) "led1"
      "fixed" [(255, 0, 0)] "forward" "medium" 1 1).frames = [] := by
  have h := C1_staging_overflow_aborts ["led1", "led2"]
    (some (List.replicate 8 ⟨0, 0, 1, 4, 1, 1, 0, []⟩)) "led1" "fixed" [(255, 0, 0)]
    "forward" "medium" 1 1 0x04 [0] (by rfl) (by rfl) (by decide) (by decide)
  exact ⟨h.1, h.2.1, h.2.2.2.2 0 rfl⟩

/-- C2: a set_color call with a valid non-"clear" mode whose resolved channels
do not overflow the 8-effect limit replays the entire staged sequence: after
the per-channel initialization frames it sends, for each staged LightingEffect
in insertion order (previously loaded effects first, then the newly appended
ones), exactly one LED-effect frame (opcode 0x35) whose payload is
[channel, start_led, num_leds, mode, speed, direction, random_colors, 0xff]
followed by the flattened color bytes (see led_effect_frame), and afterwards
exactly one final commit frame (opcode 0x33) with payload [0xff]. -/
theorem C2_full_replay_and_commit (ledNames : List String)
    (stored : Option (List LightingEffect)) (channel mode : String)
    (colors : List (ℕ × ℕ × ℕ)) (direction speed : String) (sl ml : ℤ) (mv : ℕ)
    (chans : List ℕ)
    (hmode : _MODES mode = some mv)
    (hres : _get_hw_led_channels ledNames channel = .ok (some chans))
    (hle : (loaded_effects mode stored).length + chans.length ≤ 8) :
    (set_color ledNames stored channel mode colors direction speed sl ml).raised = none ∧
    (set_color ledNames stored channel mode colors direction speed sl ml).warned = false ∧
    (set_color ledNames stored channel mode colors direction speed sl ml).frames =
      init_frames chans ++
        ((loaded_effects mode stored) ++
          chans.map (staged_effect mode speed direction colors sl ml mv)).map
            led_effect_frame ++
        [⟨_CMD_LED_COMMIT, [0xff]⟩] ∧
    ((set_color ledNames stored channel mode colors direction speed sl ml).frames.filter
        (fun f => f.cmd == _CMD_LED_EFFECT)).length =
      (loaded_effects mode stored).length + chans.length ∧
    ((set_color ledNames stored channel mode colors direction speed sl ml).frames.filter
        (fun f => f.cmd == _CMD_LED_COMMIT)) = [⟨_CMD_LED_COMMIT, [0xff]⟩] ∧
    (set_color ledNames stored channel mode colors direction speed sl ml).saved_effects =
      (if mode = "off" then none
       else some ((loaded_effects mode stored) ++
         chans.map (staged_effect mode speed direction colors sl ml mv))) := by
  rw [set_color_run ledNames stored channel mode colors direction speed sl ml mv chans
    (mode_of_MODES_some hmode) hmode hres]
  rw [led_channel_loop_no_overflow (staged_effect mode speed direction colors sl ml mv)
    chans (loaded_effects mode stored) hle]
  refine ⟨rfl, rfl, rfl, ?_, ?_, rfl⟩
  · show ((init_frames chans ++
        ((loaded_effects mode stored) ++
          chans.map (staged_effect mode speed direction colors sl ml mv)).map
            led_effect_frame ++ [(⟨_CMD_LED_COMMIT, [0xff]⟩ : Frame)]).filter
        (fun (f : Frame) => f.cmd == _CMD_LED_EFFECT)).length =
      (loaded_effects mode stored).length + chans.length
    rw [List.filter_append, List.filter_append, init_frames_filter_effect,
      map_effect_filter_effect]
    simp [_CMD_LED_COMMIT, _CMD_LED_EFFECT]
  · show ((init_frames chans ++
        ((loaded_effects mode stored) ++
          chans.map (staged_effect mode speed direction colors sl ml mv)).map
            led_effect_frame ++ [(⟨_CMD_LED_COMMIT, [0xff]⟩ : Frame)]).filter
        (fun (f : Frame) => f.cmd == _CMD_LED_COMMIT)) = [(⟨_CMD_LED_COMMIT, [0xff]⟩ : Frame)]
    rw [List.filter_append, List.filter_append, init_frames_filter_commit,
      map_effect_filter_commit]
    simp

/-- Witness for C2: a single-channel fixed-color call on the 1-LED variant
with nothing staged sends the three initialization frames, one LED-effect
frame with the documented payload, and one commit frame. -/
theorem C2_full_replay_and_commit_witness :
    (set_color ["led"] none "led" "fixed" [(255, 0, 0)] "forward" "medium" 1 10).frames =
      [⟨0x37, [0]⟩, ⟨0x34, [0]⟩, ⟨0x38, [0, 0x01]⟩,
       ⟨0x35, [0, 0, 10, 0x04, 0x01, 0x01, 0x00, 0xff, 255, 0, 0]⟩,
       ⟨0x33, [0xff]⟩] ∧
    ((set_color ["led"] none "led" "fixed" [(255, 0, 0)] "forward" "medium" 1 10).frames.filter
        (fun f => f.cmd == _CMD_LED_EFFECT)).length = 1 ∧
    ((set_color ["led"] none "led" "fixed" [(255, 0, 0)] "forward" "medium" 1 10).frames.filter
        (fun f => f.cmd == _CMD_LED_COMMIT)) = [⟨_CMD_LED_COMMIT, [0xff]⟩] := by
  have h := C2_full_replay_and_commit ["led"] none "led" "fixed" [(255, 0, 0)] "forward"
    "medium" 1 10 0x04 [0] (by rfl) (by rfl) (by decide)
  exact ⟨h.2.2.1.trans (by decide), h.2.2.2.1.trans (by decide), h.2.2.2.2.1⟩

/-- C4 (amended): in every set_color call with a valid non-"clear" mode,
start_led is clamped to [1, 204] and stored zero-based (0-203), and
maximum_leds is clamped so that the stored num_leds ranges from 1 up to
203 - start_led (in the zero-based stored start_led; equivalently 204 minus
the one-based clamped input), with the lower bound 1 winning when that upper
bound is 0; consequently every staged LightingEffect satisfies
start_led + num_leds ≤ 204, and a supplied maximum_leds between 1 and
203 - start_led (in particular one equal to 203 - start_led) is preserved
without reduction. -/
theorem C4_led_range_clamping (ledNames : List String) (channel mode : String)
    (colors : List (ℕ × ℕ × ℕ)) (direction speed : String) (sl ml : ℤ) :
    ∀ e ∈ ((set_color ledNames none channel mode colors direction speed sl ml
        ).saved_effects.getD []),
      e.start_led = (clamp sl 1 204 - 1).toNat ∧
      e.start_led ≤ 203 ∧
      1 ≤ e.num_leds ∧
      e.start_led + e.num_leds ≤ 204 ∧
      ((1:ℤ) ≤ ml → ml ≤ 203 - (e.start_led : ℤ) → (e.num_leds : ℤ) = ml) := by
  intro e he
  by_cases hclear : mode = "clear"
  · subst hclear
    simp [set_color] at he
  · rcases hmv : _MODES mode with _ | mv
    · rw [show set_color ledNames none channel mode colors direction speed sl ml =
          ⟨[], none, false, some ("ValueError: mode \"" ++ mode ++ "\" is not valid")⟩ by
        simp only [set_color, if_neg hclear, hmv]] at he
      simp at he
    · cases hres : _get_hw_led_channels ledNames channel with
      | error msg =>
        rw [set_color_res_error ledNames none channel mode colors direction speed sl ml mv
          msg hclear hmv hres] at he
        simp at he
      | ok oval =>
        cases oval with
        | none =>
          rw [set_color_res_none ledNames none channel mode colors direction speed sl ml mv
            hclear hmv hres] at he
          simp at he
        | some chans =>
          rw [set_color_run ledNames none channel mode colors direction speed sl ml mv chans
            hclear hmv hres] at he
          rcases hov : (led_channel_loop (staged_effect mode speed direction colors sl ml mv)
              chans (loaded_effects mode none)).2.2 with _ | _
          · rw [if_neg (by rw [hov]; exact Bool.false_ne_true)] at he
            have hse := led_channel_loop_saved_total
              (staged_effect mode speed direction colors sl ml mv) chans
              (loaded_effects mode none) hov
            have hld : loaded_effects mode none = [] := by
              unfold loaded_effects
              split <;> rfl
            rw [hse, hld, List.nil_append] at he
            by_cases hoff : mode = "off"
            · rw [if_pos hoff] at he
              simp at he
            · rw [if_neg hoff] at he
              simp only [Option.getD_some] at he
              rcases List.mem_map.mp he with ⟨c, _, hc⟩
              subst hc
              refine ⟨rfl, ?_, ?_, ?_, ?_⟩
              · show (clamp sl 1 204 - 1).toNat ≤ 203
                unfold clamp
                omega
              · show 1 ≤ (clamp ml 1 (204 - (clamp sl 1 204 - 1) - 1)).toNat
                unfold clamp
                omega
              · show (clamp sl 1 204 - 1).toNat +
                  (clamp ml 1 (204 - (clamp sl 1 204 - 1) - 1)).toNat ≤ 204
                unfold clamp
                omega
              · intro h1 h2
                show ((clamp ml 1 (204 - (clamp sl 1 204 - 1) - 1)).toNat : ℤ) = ml
                unfold clamp at *
                simp only [staged_effect] at h2
                unfold clamp at h2
                omega
          · rw [if_pos hov] at he
            simp at he

/-- Counterexample to C4 as stated: with start_led = 1 (stored zero-based as
0) and maximum_leds = 204 = 204 - start_led, the stored num_leds is 203, not
204: the upper clamp is 204 - start_led - 1, so a supplied maximum_leds equal
to 204 - start_led is reduced. -/
theorem C4_led_range_counterexample :
    ((set_color ["led"] none "led" "fixed" [(255, 0, 0)] "forward" "medium" 1 204
        ).saved_effects.getD []).map (fun e => (e.start_led, e.num_leds)) = [(0, 203)] ∧
    (203 : ℤ) ≠ 204 - (0 : ℤ) := by
  exact ⟨by decide, by decide⟩

/-- Witness for C4 (amended) at a concrete call: start_led = 5 is stored as 4,
and maximum_leds = 10 ≤ 203 - 4 is preserved. -/
theorem C4_led_range_clamping_witness :
    (⟨0, 4, 10, 0x04, 0x01, 0x01, 0x00, [255, 0, 0]⟩ : LightingEffect).start_led =
      (clamp 5 1 204 - 1).toNat ∧
    (⟨0, 4, 10, 0x04, 0x01, 0x01, 0x00, [255, 0, 0]⟩ : LightingEffect).start_led ≤ 203 ∧
    1 ≤ (⟨0, 4, 10, 0x04, 0x01, 0x01, 0x00, [255, 0, 0]⟩ : LightingEffect).num_leds ∧
    (⟨0, 4, 10, 0x04, 0x01, 0x01, 0x00, [255, 0, 0]⟩ : LightingEffect).start_led +
      (⟨0, 4, 10, 0x04, 0x01, 0x01, 0x00, [255, 0, 0]⟩ : LightingEffect).num_leds ≤ 204 ∧
    ((1:ℤ) ≤ 10 → (10:ℤ) ≤ 203 -
        ((⟨0, 4, 10, 0x04, 0x01, 0x01, 0x00, [255, 0, 0]⟩ : LightingEffect).start_led : ℤ) →
      ((⟨0, 4, 10, 0x04, 0x01, 0x01, 0x00, [255, 0, 0]⟩ : LightingEffect).num_leds : ℤ) = 10) :=
  C4_led_range_clamping ["led"] "led" "fixed" [(255, 0, 0)] "forward" "medium" 5 10
    ⟨0, 4, 10, 0x04, 0x01, 0x01, 0x00, [255, 0, 0]⟩ (by decide)

/-- C7: set_fixed_speed clamps the requested duty into [0, 100] and sends
exactly one SET_FAN_DUTY frame (opcode 0x23, payload [fan, duty]) for each
resolved physical fan whose cached mode is DC or PWM, in resolution order; a
resolved fan whose cached mode is Disconnected receives no frame and the call
still succeeds without error. -/
theorem C7_fixed_speed_gated_by_fan_mode (fanNames : List String)
    (stored : Option (List ℕ)) (channel : String) (duty : ℤ) (chans : List ℕ)
    (hne : fanNames.length ≠ 0)
    (hres : _get_hw_fan_channels fanNames channel = .ok (some chans)) :
    0 ≤ clamp duty 0 100 ∧ clamp duty 0 100 ≤ 100 ∧
    set_fixed_speed fanNames stored channel duty =
      .ok ((chans.filter (fun fan =>
          decide ((stored.getD (List.replicate fanNames.length 0)).getD fan 0 = _FAN_MODE_DC ∨
            (stored.getD (List.replicate fanNames.length 0)).getD fan 0 = _FAN_MODE_PWM))).map
        (fun fan => ⟨_CMD_SET_FAN_DUTY, [fan, (clamp duty 0 100).toNat]⟩)) ∧
    (∀ fan ∈ chans,
      (stored.getD (List.replicate fanNames.length 0)).getD fan 0 = _FAN_MODE_DISCONNECTED →
      ∀ fr ∈ (chans.filter (fun fan =>
          decide ((stored.getD (List.replicate fanNames.length 0)).getD fan 0 = _FAN_MODE_DC ∨
            (stored.getD (List.replicate fanNames.length 0)).getD fan 0 = _FAN_MODE_PWM))).map
        (fun fan => (⟨_CMD_SET_FAN_DUTY, [fan, (clamp duty 0 100).toNat]⟩ : Frame)),
        fr.data ≠ [fan, (clamp duty 0 100).toNat]) := by
  refine ⟨by unfold clamp; omega, by unfold clamp; omega, ?_, ?_⟩
  · unfold set_fixed_speed
    rw [if_neg hne, hres]
    dsimp only
    rw [set_fixed_speed_loop_eq]
  · intro fan _ hdisc fr hfr
    rcases List.mem_map.mp hfr with ⟨fan2, hfan2, hfr2⟩
    have hmode2 := List.of_mem_filter hfan2
    rw [decide_eq_true_eq] at hmode2
    intro hdata
    rw [← hfr2] at hdata
    simp only [Frame.mk.injEq] at hdata
    have : fan2 = fan := by
      have := List.cons.injEq fan2 [(clamp duty 0 100).toNat] fan [(clamp duty 0 100).toNat]
      rw [this] at hdata
      exact hdata.1
    rw [this, hdisc] at hmode2
    unfold _FAN_MODE_DISCONNECTED _FAN_MODE_DC _FAN_MODE_PWM at hmode2
    omega

/-- Witness for C7: on the six-fan variant with cached modes
[DC, PWM, Disconnected, Disconnected, DC, Disconnected], a "sync" call with
duty 150 clamps to 100 and sends frames only to fans 0, 1 and 4. -/
theorem C7_fixed_speed_gated_by_fan_mode_witness :
    set_fixed_speed (fan_names 6) (some [1, 2, 0, 0, 1, 0]) "sync" 150 =
      .ok [⟨0x23, [0, 100]⟩, ⟨0x23, [1, 100]⟩, ⟨0x23, [4, 100]⟩] := by
  have h := C7_fixed_speed_gated_by_fan_mode (fan_names 6) (some [1, 2, 0, 0, 1, 0]) "sync"
    150 [0, 1, 2, 3, 4, 5] (by decide) (by rfl)
  exact h.2.2.1.trans (by rfl)

/-- C6: set_speed_profile pads the normalized (temperature, duty) profile with
repeated (critical-temperature, maximum-value) points until exactly 6 points
exist (a 4-point input with critical temperature 60 gains 5th and 6th points
equal to (60, 5000)), and rejects with a ValueError any input whose normalized
profile has more than 6 points, before any HID frame is produced. -/
theorem C6_profile_padding_and_rejection :
    (∀ (original : List (ℤ × ℤ)) (crit : ℤ),
      (normalize_profile (original.map (fun td => (td.1, clamp td.2 0 _MAX_FAN_RPM)))
          crit _MAX_FAN_RPM).length ≤ _PROFILE_LENGTH →
      _prepare_profile original crit =
        .ok (normalize_profile (original.map (fun td => (td.1, clamp td.2 0 _MAX_FAN_RPM)))
            crit _MAX_FAN_RPM ++
          List.replicate (_PROFILE_LENGTH -
            (normalize_profile (original.map (fun td => (td.1, clamp td.2 0 _MAX_FAN_RPM)))
              crit _MAX_FAN_RPM).length) (crit, _MAX_FAN_RPM)) ∧
      (∀ prof, _prepare_profile original crit = .ok prof →
        prof.length = _PROFILE_LENGTH)) ∧
    (∀ (fanNames : List String) (stored_fan_modes stored_temp_sensors : Option (List ℕ))
      (temp_probs : ℕ) (channel : String) (original : List (ℤ × ℤ))
      (temperature_sensor : ℤ) (allow_high_temperature : Bool),
      fanNames.length ≠ 0 →
      _PROFILE_LENGTH <
        (normalize_profile (original.map (fun td => (td.1, clamp td.2 0 _MAX_FAN_RPM)))
          (if allow_high_temperature then _CRITICAL_TEMPERATURE_HIGH
           else _CRITICAL_TEMPERATURE) _MAX_FAN_RPM).length →
      set_speed_profile fanNames stored_fan_modes stored_temp_sensors temp_probs channel
          original temperature_sensor allow_high_temperature =
        .error ("too many points in profile (remove " ++
          toString ((normalize_profile
              (original.map (fun td => (td.1, clamp td.2 0 _MAX_FAN_RPM)))
              (if allow_high_temperature then _CRITICAL_TEMPERATURE_HIGH
               else _CRITICAL_TEMPERATURE) _MAX_FAN_RPM).length - _PROFILE_LENGTH) ++
          ")")) ∧
    _prepare_profile [(20, 500), (30, 1000), (40, 2000), (50, 3000)] 60 =
      .ok [(20, 500), (30, 1000), (40, 2000), (50, 3000), (60, 5000), (60, 5000)] := by
  refine ⟨?_, ?_, by rfl⟩
  · intro original crit hle
    have hnot : ¬ (normalize_profile (original.map (fun td => (td.1, clamp td.2 0 _MAX_FAN_RPM)))
        crit _MAX_FAN_RPM).length > _PROFILE_LENGTH := by omega
    constructor
    · unfold _prepare_profile
      rw [if_neg hnot]
    · intro prof hprof
      unfold _prepare_profile at hprof
      rw [if_neg hnot] at hprof
      simp only [Except.ok.injEq] at hprof
      rw [← hprof]
      simp only [List.length_append, List.length_replicate]
      unfold _PROFILE_LENGTH at *
      omega
  · intro fanNames sfm sts temp_probs channel original tsensor hht hne hgt
    unfold set_speed_profile
    rw [if_neg hne]
    dsimp only
    have herr : _prepare_profile original
        (if hht = true then _CRITICAL_TEMPERATURE_HIGH else _CRITICAL_TEMPERATURE) =
        .error ("too many points in profile (remove " ++
          toString ((normalize_profile
              (original.map (fun td => (td.1, clamp td.2 0 _MAX_FAN_RPM)))
              (if hht = true then _CRITICAL_TEMPERATURE_HIGH else _CRITICAL_TEMPERATURE)
              _MAX_FAN_RPM).length - _PROFILE_LENGTH) ++ ")") := by
      unfold _prepare_profile
      rw [if_pos (by omega)]
    rw [herr]

/-- Witness for C6: the 4-point padding example via the first conjunct, and a
concrete 7-point profile rejected by set_speed_profile with no frames sent. -/
theorem C6_profile_padding_and_rejection_witness :
    _prepare_profile [(20, 500), (30, 1000), (40, 2000), (50, 3000)] 60 =
      .ok ([(20, 500), (30, 1000), (40, 2000), (50, 3000)] ++
        List.replicate 2 ((60 : ℤ), (5000 : ℤ))) ∧
    set_speed_profile (fan_names 6) (some [1, 1, 1, 1, 1, 1]) (some [1, 1, 1, 1]) 4 "fan1"
        [(10, 100), (20, 200), (30, 300), (35, 350), (40, 400), (45, 450), (50, 500)] 1
        false =
      .error "too many points in profile (remove 1)" := by
  constructor
  · have h := (C6_profile_padding_and_rejection.1 [(20, 500), (30, 1000), (40, 2000),
      (50, 3000)] 60 (by decide)).1
    exact h.trans (by rfl)
  · have h := C6_profile_padding_and_rejection.2.1 (fan_names 6) (some [1, 1, 1, 1, 1, 1])
      (some [1, 1, 1, 1]) 4 "fan1"
      [(10, 100), (20, 200), (30, 300), (35, 350), (40, 400), (45, 450), (50, 500)] 1
      false (by decide) (by decide)
    exact h.trans (by rfl)

theorem l11_n_33_10 : _l11_n ((33:ℚ)/10) = -8 := by
  unfold _l11_n
  apply clog2_eq
  · rw [abs_of_nonneg (by norm_num)]; norm_num
  · rw [abs_of_nonneg (by norm_num)]; norm_num
  · rw [abs_of_nonneg (by norm_num)]; norm_num

theorem l11_y_33_10 : _l11_y ((33:ℚ)/10) = 845 := by
  unfold _l11_y
  rw [l11_n_33_10]
  have h : pyRound ((33:ℚ)/10 * (2:ℚ)^(-(-8:ℤ))) = 844 + 1 := by
    apply pyRound_eq_floor_add_one (f := 844)
    · rw [Int.floor_eq_iff]; norm_num
    · norm_num
  rw [h]
  norm_num

theorem l11_n_m2812 : _l11_n (-2812 : ℚ) = 2 := by
  unfold _l11_n
  apply clog2_eq
  · rw [abs_of_nonpos (by norm_num)]; norm_num
  · rw [abs_of_nonpos (by norm_num)]; norm_num
  · rw [abs_of_nonpos (by norm_num)]; norm_num

theorem l11_y_m2812 : _l11_y (-2812 : ℚ) = -703 := by
  unfold _l11_y
  rw [l11_n_m2812]
  have h : ((-2812:ℚ) * (2:ℚ)^(-(2:ℤ))) = ((-703 : ℤ) : ℚ) := by norm_num
  rw [h, pyRound_intCast]

theorem float_to_linear11_m2812 : float_to_linear11 (-2812 : ℚ) = [65, 21] := by
  unfold float_to_linear11 _l11_v _l11_n2 _l11_y2
  rw [if_neg (by norm_num : ¬ ((-2812:ℚ) = 0)), l11_n_m2812, l11_y_m2812]
  norm_num
  decide

theorem linear11_decode_encode_exact (x : ℚ) (hx : x ≠ 0) (n : ℤ)
    (hn : n = _l11_n x) (hlo : -16 ≤ n) (hhi : n ≤ 15)
    (hexact : ((pyRound (x * (2:ℚ) ^ (-n)) : ℤ) : ℚ) * (2:ℚ) ^ n = x) :
    linear_to_float (float_to_linear11 x) none = x := by
  have hxpos : (0:ℚ) < |x| := abs_pos.mpr hx
  have hA : |x| / 1023 ≤ (2:ℚ) ^ n := by
    rw [hn]
    unfold _l11_n
    have h := Int.self_le_zpow_clog (b := 2) (r := (|x| / 1023)) (by norm_num)
    simpa using h
  have hzpos : (0:ℚ) < (2:ℚ) ^ (-n) := by positivity
  have habs : |x| * (2:ℚ)^(-n) ≤ 1023 := by
    have hx1023 : |x| ≤ 1023 * (2:ℚ)^n := by
      rw [div_le_iff₀ (by norm_num : (0:ℚ) < 1023)] at hA
      linarith
    calc |x| * (2:ℚ)^(-n) ≤ (1023 * (2:ℚ)^n) * (2:ℚ)^(-n) :=
          mul_le_mul_of_nonneg_right hx1023 (le_of_lt hzpos)
      _ = 1023 := by
          rw [mul_assoc, ← zpow_add₀ (by norm_num : (2:ℚ) ≠ 0)]
          simp
  have hB : x * (2:ℚ)^(-n) ≤ ((1023:ℤ):ℚ) := by
    push_cast
    calc x * (2:ℚ)^(-n) ≤ |x| * (2:ℚ)^(-n) :=
          mul_le_mul_of_nonneg_right (le_abs_self x) (le_of_lt hzpos)
      _ ≤ 1023 := habs
  have hB2 : (((-1023:ℤ)):ℚ) ≤ x * (2:ℚ)^(-n) := by
    push_cast
    have hneg : -(x * (2:ℚ)^(-n)) ≤ |x| * (2:ℚ)^(-n) := by
      calc -(x * (2:ℚ)^(-n)) = (-x) * (2:ℚ)^(-n) := by ring
        _ ≤ |x| * (2:ℚ)^(-n) := mul_le_mul_of_nonneg_right (neg_le_abs x) (le_of_lt hzpos)
    linarith
  have hyle : pyRound (x * (2:ℚ)^(-n)) ≤ 1023 := pyRound_le hB
  have hyge : -1023 ≤ pyRound (x * (2:ℚ)^(-n)) := le_pyRound hB2
  have hy0 : pyRound (x * (2:ℚ)^(-n)) ≠ 0 := by
    intro h
    rw [h] at hexact
    push_cast at hexact
    simp at hexact
    exact hx hexact.symm
  have hny : _l11_y x = pyRound (x * (2:ℚ)^(-n)) := by
    unfold _l11_y
    rw [← hn]
  set y : ℤ := pyRound (x * (2:ℚ)^(-n)) with hy
  have hn2 : _l11_n2 x = if n < 0 then n + 32 else n := by
    unfold _l11_n2
    rw [← hn]
  have hy2 : _l11_y2 x = if y < 0 then y + 2048 else y := by
    unfold _l11_y2
    rw [hny]
  set n2 : ℤ := if n < 0 then n + 32 else n with hn2d
  set y2 : ℤ := if y < 0 then y + 2048 else y with hy2d
  have hn2b : 0 ≤ n2 ∧ n2 ≤ 31 := by
    constructor <;> (rw [hn2d]; split <;> omega)
  have hy2b : 0 ≤ y2 ∧ y2 < 2048 := by
    constructor <;> (rw [hy2d]; split <;> omega)
  have hvz : (0:ℤ) ≤ n2 * 2048 + y2 := by nlinarith [hn2b.1, hy2b.1]
  have hvv : ((_l11_v x : ℕ) : ℤ) = n2 * 2048 + y2 := by
    unfold _l11_v
    rw [hn2, hy2]
    exact Int.toNat_of_nonneg hvz
  have henc : float_to_linear11 x = [_l11_v x % 256, _l11_v x / 256] := by
    unfold float_to_linear11
    rw [if_neg hx]
  rw [henc]
  unfold linear_to_float
  simp only [List.getD_cons_zero, List.getD_cons_succ]
  have htmp : _l11_v x % 256 + 256 * (_l11_v x / 256) = _l11_v x := Nat.mod_add_div _ _
  rw [htmp]
  have hshift : (_l11_v x >>> 11) = _l11_v x / 2048 := by
    rw [Nat.shiftRight_eq_div_pow]
  have hand : (_l11_v x &&& 0x7ff) = _l11_v x % 2048 := by
    have h711 : (0x7ff : ℕ) = 2^11 - 1 := by norm_num
    rw [h711, Nat.and_pow_two_sub_one_eq_mod]
  rw [hshift, hand]
  have hdiv : ((_l11_v x / 2048 : ℕ) : ℤ) = n2 := by omega
  have hmod : ((_l11_v x % 2048 : ℕ) : ℤ) = y2 := by omega
  have hfra : (if ((_l11_v x % 2048 : ℕ) : ℤ) > 1023 then ((_l11_v x % 2048 : ℕ) : ℤ) - 2048
      else ((_l11_v x % 2048 : ℕ) : ℤ)) = y := by
    rw [hmod, hy2d]
    by_cases hyneg : y < 0
    · rw [if_pos hyneg, if_pos (by omega)]
      omega
    · rw [if_neg hyneg, if_neg (by omega)]
  have hexp : (if ((_l11_v x / 2048 : ℕ) : ℤ) > 15 then ((_l11_v x / 2048 : ℕ) : ℤ) - 32
      else ((_l11_v x / 2048 : ℕ) : ℤ)) = n := by
    rw [hdiv, hn2d]
    by_cases hnneg : n < 0
    · rw [if_pos hnneg, if_pos (by omega)]
      omega
    · rw [if_neg hnneg, if_neg (by omega)]
  rw [hfra, hexp]
  exact hexact

/-- C9: float_to_linear11 maps 0.0 to the two bytes 0x00 0x00 and maps 3.3 to
the little-endian bytes 0x4d 0xc3; the round-trip law
linear_to_float (float_to_linear11 x) = x holds for every nonzero value whose
chosen mantissa round is exact and whose chosen exponent fits the 5-bit
two's-complement field, and in particular
linear_to_float (float_to_linear11 (-2812)) = -2812. -/
theorem C9_linear11_encode_roundtrip :
    float_to_linear11 0 = [0x00, 0x00] ∧
    float_to_linear11 ((33:ℚ)/10) = [0x4d, 0xc3] ∧
    linear_to_float (float_to_linear11 (-2812 : ℚ)) none = -2812 ∧
    (∀ (x : ℚ) (n : ℤ), x ≠ 0 → n = _l11_n x → -16 ≤ n → n ≤ 15 →
      ((pyRound (x * (2:ℚ) ^ (-n)) : ℤ) : ℚ) * (2:ℚ) ^ n = x →
      linear_to_float (float_to_linear11 x) none = x) := by
  refine ⟨?_, ?_, ?_, ?_⟩
  · unfold float_to_linear11
    rw [if_pos rfl]
  · unfold float_to_linear11 _l11_v _l11_n2 _l11_y2
    rw [if_neg (by norm_num : ¬ ((33:ℚ)/10 = 0)), l11_n_33_10, l11_y_33_10]
    norm_num
    decide
  · rw [float_to_linear11_m2812]
    unfold linear_to_float
    have h1 : ((65 + 256 * 21 : ℕ) >>> 11) = 2 := by
      rw [Nat.shiftRight_eq_div_pow]
    have h2 : ((65 + 256 * 21 : ℕ) &&& 0x7ff) = 1345 := by
      have h711 : (0x7ff : ℕ) = 2^11 - 1 := by norm_num
      rw [h711, Nat.and_pow_two_sub_one_eq_mod]
    simp only [List.getD_cons_zero, List.getD_cons_succ]
    norm_num [h1, h2]
  · exact fun x n hx hn h1 h2 hex => linear11_decode_encode_exact x hx n hn h1 h2 hex

/-- Witness for C9: the round-trip law applied at the exactly representable
value 512 (exponent 0, mantissa 512). -/
theorem C9_linear11_encode_roundtrip_witness :
    linear_to_float (float_to_linear11 (512 : ℚ)) none = 512 := by
  have hn : _l11_n (512 : ℚ) = 0 := by
    unfold _l11_n
    apply clog2_eq
    · rw [abs_of_nonneg (by norm_num)]; norm_num
    · rw [abs_of_nonneg (by norm_num)]; norm_num
    · rw [abs_of_nonneg (by norm_num)]; norm_num
  refine C9_linear11_encode_roundtrip.2.2.2 512 0 (by norm_num) hn.symm (by norm_num)
    (by norm_num) ?_
  have h : ((512:ℚ) * (2:ℚ) ^ (-(0:ℤ))) = ((512 : ℤ) : ℚ) := by norm_num
  rw [h, pyRound_intCast]
  norm_num
